/-
Verification of the homebridge-smartthings core against its specification.

The definitions below are a shallow embedding of the TypeScript sources:
  * src/multiServiceAccessory.ts  (capability resolution, device synchronizer)
  * src/platform.ts               (401 interceptor, didFinishLaunching)
  * src/auth/auth.ts              (SmartThingsAuth)
  * src/auth/tokenManager.ts      (TokenManager)
Where code of the repository is not included in the sources (the
CrashLoopManager and the individual service adapters), the corresponding
definitions are modelled from the specification and say so in their doc
comments.  Every definition cites the source lines it embeds.
-/

import Mathlib

/-! # Capability resolution (multiServiceAccessory.ts 46-409) -/

/-- The adapter classes that capability resolution can instantiate.  One
constructor per service class imported by multiServiceAccessory.ts. -/

inductive ServiceKind where
  | door | lock | zigbangSmartDoorlock | switch | windowCovering | motion
  | leakDetector | smokeDetector | carbonMonoxideDetector | occupancy
  | temperature | humidity | lightSensor | contactSensor
  | statelessProgrammableSwitch | battery | valve | acLighting
  | airConditioner | fanSwitchLevel | fanSpeed | light | thermostat
  | television | volumeSlider
deriving DecidableEq, Repr

/-- An adapter binding produced by resolution: the component it is bound to,
the capability subset it covers, and its service class (the arguments of the
service constructor calls in multiServiceAccessory.ts 250, 280, 325). -/

structure Adapter where
  componentId : String
  capabilities : List String
  service : ServiceKind
deriving DecidableEq, Repr

/-- The single-capability table `capabilityMap` (multiServiceAccessory.ts
63-83), in declaration order (JS object key order). -/

def capabilityMap : List (String × ServiceKind) :=
  [ ("doorControl", .door),
    ("lock", .lock),
    ("absoluteweather46907.lock", .zigbangSmartDoorlock),
    ("switch", .switch),
    ("windowShadeLevel", .windowCovering),
    ("windowShade", .windowCovering),
    ("motionSensor", .motion),
    ("waterSensor", .leakDetector),
    ("smokeDetector", .smokeDetector),
    ("carbonMonoxideDetector", .carbonMonoxideDetector),
    ("presenceSensor", .occupancy),
    ("temperatureMeasurement", .temperature),
    ("relativeHumidityMeasurement", .humidity),
    ("illuminanceMeasurement", .lightSensor),
    ("contactSensor", .contactSensor),
    ("button", .statelessProgrammableSwitch),
    ("battery", .battery),
    ("valve", .valve),
    ("samsungce.airConditionerLighting", .acLighting) ]

/-- One entry of the combination-rule table: required capability set,
optional capability set, service class. -/

structure ComboEntry where
  capabilities : List String
  optionalCapabilities : List String := []
  service : ServiceKind
deriving DecidableEq, Repr

/-- The combination-rule table `comboCapabilityMap` (multiServiceAccessory.ts
86-147), in declaration order. -/

def comboCapabilityMap : List ComboEntry :=
  [ { capabilities := ["switch", "airConditionerMode", "airConditionerFanMode",
        "thermostatCoolingSetpoint", "temperatureMeasurement"],
      optionalCapabilities := ["fanOscillationMode", "relativeHumidityMeasurement",
        "custom.airConditionerOptionalMode"],
      service := .airConditioner },
    { capabilities := ["switch", "fanSpeed", "switchLevel"], service := .fanSwitchLevel },
    { capabilities := ["switch", "fanSpeed"], service := .fanSpeed },
    { capabilities := ["switch", "switchLevel"], service := .light },
    { capabilities := ["switch", "colorControl"], service := .light },
    { capabilities := ["switch", "colorTemperature"], service := .light },
    { capabilities := ["switch", "valve"], service := .valve },
    { capabilities := ["temperatureMeasurement", "thermostatMode",
        "thermostatHeatingSetpoint", "thermostatCoolingSetpoint"],
      service := .thermostat },
    { capabilities := ["temperatureMeasurement", "thermostatHeatingSetpoint"],
      service := .thermostat },
    { capabilities := ["windowShade", "windowShadeLevel"], service := .windowCovering },
    { capabilities := ["windowShade", "switchLevel"], service := .windowCovering } ]

/-- Insert a combo entry into an already-sorted list: it goes before the first
entry with a strictly smaller required set, i.e. after every entry whose
required set is at least as large. -/

def insertByLenDesc (e : ComboEntry) : List ComboEntry → List ComboEntry
  | [] => [e]
  | x :: xs =>
    if e.capabilities.length > x.capabilities.length then e :: x :: xs
    else x :: insertByLenDesc e xs

/-- The in-place `sort` at multiServiceAccessory.ts 349 with comparator
`a.capabilities.length > b.capabilities.length ? -1 : 1`.  On the actual
runtime (V8, stable sort since ES2019, binary insertion for short arrays)
this yields the table in descending order of required-set size with
equal-size entries kept in declaration order, which is what this stable
insertion sort computes. -/

def sortCombosDesc (l : List ComboEntry) : List ComboEntry :=
  l.foldl (fun acc e => insertByLenDesc e acc) []

/-- `registerServiceIfMatchesCapabilities` (multiServiceAccessory.ts 232-256):
if every required capability is still uncovered, instantiate one adapter over
required ∪ (optional ∩ uncovered) and remove those from the uncovered set;
otherwise change nothing.  Returns the adapters created (`[]` or one) and the
new uncovered list. -/

def registerServiceIfMatchesCapabilities (componentId : String)
    (capabilitiesToCover : List String) (capabilities : List String)
    (optionalCapabilities : List String) (svc : ServiceKind) :
    List Adapter × List String :=
  if capabilities.all (fun e => capabilitiesToCover.contains e) then
    let allCapabilities :=
      capabilities ++ optionalCapabilities.filter (fun e => capabilitiesToCover.contains e)
    ([⟨componentId, allCapabilities, svc⟩],
     capabilitiesToCover.filter (fun e => !allCapabilities.contains e))
  else ([], capabilitiesToCover)

/-- The platform configuration fields read by `addComponent`
(multiServiceAccessory.ts 269-270, 319, 365).  `Option Bool` models a JS
config field that may be absent: the code tests `!== false` resp. `=== true`. -/

structure ResolutionConfig where
  enableTelevisionService : Option Bool := none
  removeLegacySwitchForTV : Option Bool := none
  registerVolumeSlider : Option Bool := none
  exposeACDisplayLight : Bool := false
deriving DecidableEq, Repr

/-- Modelled from the spec: `TelevisionService.getTvCapabilities()`
(src/services/televisionService.ts is not among the sources; only its caller
is).  The primary-device detector's eligible capability set; per the caller it
contains "switch" (multiServiceAccessory.ts 308-314, the overlapping legacy
capability of spec §4.1 step 2a) and "samsungvd.mediaInputSource"
(multiServiceAccessory.ts 292). -/

def getTvCapabilities : List String :=
  ["switch", "tvChannel", "samsungvd.mediaInputSource"]

/-- Modelled from the spec: `VolumeSliderService.getVolumeSliderCapabilities()`
(src/services/volumeSliderService.ts is not among the sources).  The companion
control surface's distinct required capability set (spec §4.1 step 2b). -/

def getVolumeSliderCapabilities : List String := ["audioVolume"]

/-- Modelled from the spec: `VolumeSliderService.supportsVolumeSlider(caps)`:
true iff the companion's distinct required capabilities are present. -/

def supportsVolumeSlider (capabilities : List String) : Bool :=
  getVolumeSliderCapabilities.all (fun c => capabilities.contains c)

/-- The Television heuristic of `addComponent` (multiServiceAccessory.ts
268-344): when enabled, on the main component of a TV device, register one
Television adapter over the claimed TV capabilities, apply the legacy-switch
retention policy, and possibly register the companion volume slider.
Returns the adapters created so far and the remaining uncovered
capabilities. -/

def tvResolutionStep (cfg : ResolutionConfig) (deviceIsTv : Bool)
    (componentId : String) (capabilities : List String) :
    List Adapter × List String :=
  let isTelevisionEnabled := cfg.enableTelevisionService ≠ some false
  let removeLegacySwitch := cfg.removeLegacySwitchForTV = some true
  if isTelevisionEnabled ∧ componentId = "main" ∧ deviceIsTv then
    let tvCapabilities := getTvCapabilities.filter (fun cap => capabilities.contains cap)
    if tvCapabilities.length > 0 then
      -- remove TV capabilities from the list (line 305)
      let ctc := capabilities.filter (fun cap => !tvCapabilities.contains cap)
      -- legacy-switch retention policy (lines 308-315): unless configured to
      -- remove it, the switch capability is pushed back for a legacy adapter
      let ctc :=
        if removeLegacySwitch ∧ tvCapabilities.contains "switch" then ctc
        else if tvCapabilities.contains "switch" then ctc ++ ["switch"] else ctc
      -- companion volume slider (lines 319-340); note the filter is over the
      -- original `capabilities`, not over `ctc`
      if cfg.registerVolumeSlider = some true ∧ componentId = "main"
          ∧ supportsVolumeSlider capabilities then
        let volumeSliderCapabilities :=
          getVolumeSliderCapabilities.filter (fun cap => capabilities.contains cap)
        if volumeSliderCapabilities.length > 0 then
          ([⟨componentId, tvCapabilities, .television⟩,
            ⟨componentId, volumeSliderCapabilities, .volumeSlider⟩],
           ctc.filter (fun cap => !volumeSliderCapabilities.contains cap))
        else ([⟨componentId, tvCapabilities, .television⟩], ctc)
      else ([⟨componentId, tvCapabilities, .television⟩], ctc)
    else ([], capabilities)
  else ([], capabilities)

/-- The combination-rule pass of `addComponent` (multiServiceAccessory.ts
346-359): fold `registerServiceIfMatchesCapabilities` over the sorted combo
table, accumulating adapters. -/

def comboResolutionStep (componentId : String) (st : List Adapter × List String) :
    List Adapter × List String :=
  (sortCombosDesc comboCapabilityMap).foldl
    (fun acc entry =>
      let r := registerServiceIfMatchesCapabilities componentId acc.2
        entry.capabilities entry.optionalCapabilities entry.service
      (acc.1 ++ r.1, r.2)) st

/-- The single-capability pass of `addComponent` (multiServiceAccessory.ts
361-378), with the AC-display-light feature gate at 365. -/

def singleResolutionStep (cfg : ResolutionConfig) (componentId : String)
    (st : List Adapter × List String) : List Adapter × List String :=
  capabilityMap.foldl
    (fun acc p =>
      if p.1 = "samsungce.airConditionerLighting" ∧ ¬cfg.exposeACDisplayLight then acc
      else
        let r := registerServiceIfMatchesCapabilities componentId acc.2 [p.1] [] p.2
        (acc.1 ++ r.1, r.2)) st

/-- `addComponent` (multiServiceAccessory.ts 258-379) restricted to its
resolution output: the list of adapters created for one component, in
creation order.  `deviceIsTv` stands for `TelevisionService.isTelevisionDevice`
(source not included; a device-metadata predicate per spec §4.1 step 2a). -/

def addComponent (cfg : ResolutionConfig) (deviceIsTv : Bool)
    (componentId : String) (capabilities : List String) : List Adapter :=
  (singleResolutionStep cfg componentId
    (comboResolutionStep componentId
      (tvResolutionStep cfg deviceIsTv componentId capabilities))).1

/-! # Device synchronizer (multiServiceAccessory.ts 161-616)

The synchronizer's async methods are embedded as a small-step machine over
the per-device mutable fields.  A task's program counter tracks which
suspension point of the method it has reached; a step runs the code between
two suspension points, which in the single-threaded runtime executes
atomically.  The crucial granularity, taken directly from the promise
semantics of the source: a `waitFor(cond).then(cb)` whose condition already
holds evaluates `cond` synchronously but runs `cb` only on a later microtask
(multiServiceAccessory.ts 600-603), so the check and the callback body are
separate steps.  In `refreshStatus` the staleness/in-progress checks and the
flag assignments at lines 421-431 all sit in the synchronous promise
executor and therefore form one step. -/

/-- The per-device mutable fields of `MultiServiceAccessory`
(multiServiceAccessory.ts 161-170). -/

structure Dev where
  online : Bool := true
  deviceStatusTimestamp : Nat := 0
  failureCount : Nat := 0
  giveUpTime : Nat := 0
  commandInProgress : Bool := false
  lastCommandCompleted : Nat := 0
  statusQueryInProgress : Bool := false
  lastStatusResult : Bool := true
deriving DecidableEq, Repr

/-- Program counters of the synchronizer's async methods.  Each carries the
predetermined outcome `ok` of the remote call it will eventually make
(success/failure of the axios request).

`sendCommands` (574-597): entry = the synchronous `waitFor` check (600-603);
waiting = spinning in the 250 ms interval (606-615); queued = the check
passed, the `then` callback (577-595) not yet run; inFlight = the callback
set `commandInProgress` and issued the POST.

`refreshStatus` (418-484): entry = the synchronous executor (420-432)
including the staleness check, the in-progress check, the flag assignments
and the synchronous `waitFor` check on `commandInProgress`; awaitQuery =
spinning on `statusQueryInProgress` (426); resolveQueued = that wait
resolved, the callback reading `lastStatusResult` not yet run; waitCmd =
spinning on `commandInProgress` (432); queuedFetch = that wait resolved, the
callback (433-478) not yet run; inFlight = the GET was issued. -/

inductive TaskState where
  | sendEntry (ok : Bool)
  | sendWaiting (ok : Bool)
  | sendQueued (ok : Bool)
  | sendInFlight (ok : Bool)
  | refreshEntry (ok : Bool)
  | refreshAwaitQuery
  | refreshResolveQueued
  | refreshWaitCmd (ok : Bool)
  | refreshQueuedFetch (ok : Bool)
  | refreshInFlight (ok : Bool)
  | taskDone (r : Bool)
deriving DecidableEq, Repr

/-- Result of running one task step: new device fields, new program counter,
and how many remote status GETs / command POSTs the step issued. -/

structure StepOut where
  dev : Dev
  task : TaskState
  statusCalls : Nat := 0
  postCalls : Nat := 0
deriving DecidableEq, Repr

/-- One step of one task, at clock value `clock` (the value `Date.now()`
returns during the step).  Each branch is the code between two suspension
points; line references in the comments. -/

def taskStep (d : Dev) (clock : Nat) : TaskState → StepOut
  | .sendEntry ok =>
    -- 577 with 600-603: synchronous check of !commandInProgress
    if d.commandInProgress then ⟨d, .sendWaiting ok, 0, 0⟩ else ⟨d, .sendQueued ok, 0, 0⟩
  | .sendWaiting ok =>
    -- 606-615: poll the condition every 250 ms
    if d.commandInProgress then ⟨d, .sendWaiting ok, 0, 0⟩ else ⟨d, .sendQueued ok, 0, 0⟩
  | .sendQueued ok =>
    -- 578-579: set commandInProgress and issue the POST
    ⟨{ d with commandInProgress := true }, .sendInFlight ok, 0, 1⟩
  | .sendInFlight ok =>
    -- 579-594: the POST completed; note lastCommandCompleted is NOT updated
    if ok then
      ⟨{ d with deviceStatusTimestamp := 0, commandInProgress := false }, .taskDone true, 0, 0⟩
    else
      ⟨{ d with commandInProgress := false }, .taskDone false, 0, 0⟩
  | .refreshEntry ok =>
    -- 420-432: the synchronous promise executor
    if clock - d.deviceStatusTimestamp > 5000 then
      if d.statusQueryInProgress then
        -- 424-428: another fetch is in flight; wait for it
        ⟨d, .refreshAwaitQuery, 0, 0⟩
      else
        -- 430-432: claim the fetch, reset failureCount, check commandInProgress
        let d' := { d with statusQueryInProgress := true, failureCount := 0 }
        if d'.commandInProgress then ⟨d', .refreshWaitCmd ok, 0, 0⟩
        else ⟨d', .refreshQueuedFetch ok, 0, 0⟩
    else
      -- 480-482: fresh cache, resolve(true) without a remote call
      ⟨d, .taskDone true, 0, 0⟩
  | .refreshAwaitQuery =>
    -- 426 with 606-615: spin until statusQueryInProgress clears
    if d.statusQueryInProgress then ⟨d, .refreshAwaitQuery, 0, 0⟩ else ⟨d, .refreshResolveQueued, 0, 0⟩
  | .refreshResolveQueued =>
    -- 426: resolve(this.lastStatusResult) in the queued callback
    ⟨d, .taskDone d.lastStatusResult, 0, 0⟩
  | .refreshWaitCmd ok =>
    -- 432 with 606-615: spin until commandInProgress clears
    if d.commandInProgress then ⟨d, .refreshWaitCmd ok, 0, 0⟩ else ⟨d, .refreshQueuedFetch ok, 0, 0⟩
  | .refreshQueuedFetch ok =>
    -- 433-434: set lastStatusResult := true and issue the GET
    ⟨{ d with lastStatusResult := true }, .refreshInFlight ok, 1, 0⟩
  | .refreshInFlight ok =>
    if ok then
      -- 434-453: store the component statuses, stamp the snapshot, clear the
      -- flag, resolve(true).  The model takes the response to contain every
      -- component of the device (the forEach at 436-444 then updates each one
      -- and sets deviceStatusTimestamp := Date.now()).
      ⟨{ d with deviceStatusTimestamp := clock, statusQueryInProgress := false },
        .taskDone true, 0, 0⟩
    else
      -- 465-477: failure path
      let fc := d.failureCount + 1
      if fc ≥ 5 then
        let d' := { d with
          failureCount := fc
          giveUpTime := clock
          online := false
          statusQueryInProgress := false
          lastStatusResult := false }
        ⟨d', .taskDone false, 0, 0⟩
      else
        let d' := { d with
          failureCount := fc
          statusQueryInProgress := false
          lastStatusResult := false }
        ⟨d', .taskDone false, 0, 0⟩
  | .taskDone r => ⟨d, .taskDone r, 0, 0⟩

/-- A machine configuration: the device fields, a clock, the counts of remote
calls issued so far, and the tasks (concurrent method invocations). -/

structure Machine where
  dev : Dev
  clock : Nat := 0
  statusCalls : Nat := 0
  postCalls : Nat := 0
  tasks : List TaskState
deriving DecidableEq, Repr

/-- Run one scheduler choice: step task `i` (a no-op when `i` is out of
range).  The clock advances by one abstract millisecond per step. -/

def stepTask (m : Machine) (i : Nat) : Machine :=
  match m.tasks[i]? with
  | none => { m with clock := m.clock + 1 }
  | some t =>
    let r := taskStep m.dev m.clock t
    { dev := r.dev, clock := m.clock + 1,
      statusCalls := m.statusCalls + r.statusCalls,
      postCalls := m.postCalls + r.postCalls,
      tasks := m.tasks.set i r.task }

/-- Run a whole schedule (a list of scheduler choices). -/

def execTrace (m : Machine) (sched : List Nat) : Machine :=
  sched.foldl stepTask m

/-! # Polling (multiServiceAccessory.ts 521-567) -/

/-- The event-push gate of `startPollingState` (multiServiceAccessory.ts
525-529): with a non-empty webhook token no interval is ever created; with
`pollSeconds = 0` likewise.  Returns whether a polling timer exists. -/

def startPollingStateCreatesTimer (webhookToken : Option String) (pollSeconds : Nat) : Bool :=
  match webhookToken with
  | some t => if t ≠ "" then false else decide (pollSeconds > 0)
  | none => decide (pollSeconds > 0)

/-- The skip guard at the top of each polling tick (multiServiceAccessory.ts
532-536): the tick is dropped when a command is in flight or fewer than
20 s have elapsed since `lastCommandCompleted`. -/

def pollTickSkipped (d : Dev) (now : Nat) : Bool :=
  d.commandInProgress || decide (now - d.lastCommandCompleted < 20 * 1000)

/-- The offline branch of a polling tick (multiServiceAccessory.ts 552-564):
when the device is offline and gave up more than 10 minutes ago, probe the
health endpoint; a probe reporting ONLINE restores the online flag and resets
the failure counter.  Returns the new device fields and whether a health
probe was issued. -/

def pollTickOffline (d : Dev) (now : Nat) (probeReportsOnline : Bool) : Dev × Bool :=
  if d.giveUpTime > 0 ∧ now - d.giveUpTime > 10 * 60 * 1000 then
    if probeReportsOnline then
      ({ d with online := true, giveUpTime := 0, failureCount := 0 }, true)
    else (d, true)
  else (d, false)

/-! # Token store (auth/tokenManager.ts, auth/auth.ts, platform.ts) -/

/-- The persisted token record (tokenManager.ts 6-14). -/

structure TokenData where
  access_token : String
  refresh_token : String
  expires_in : Nat
  expires_at : Nat
  refresh_token_expires_at : Nat
deriving DecidableEq, Repr

/-- The partial token data returned by the token-exchange endpoint and
accepted by `updateTokens` (tokenManager.ts 120:  `Partial<TokenData>`). -/

structure TokenPatch where
  access_token : Option String := none
  refresh_token : Option String := none
  expires_in : Option Nat := none
deriving DecidableEq, Repr

/-- The TokenManager's state: the in-memory `tokenData` (tokenManager.ts 18)
and the contents of the token file (`smartthings_tokens.json`). -/

structure TokenStore where
  tokenData : Option TokenData
  file : Option TokenData
deriving DecidableEq, Repr

/-- `getAccessToken` (tokenManager.ts 161-163); the JS `|| null` maps an
empty string to null. -/

def getAccessToken (s : TokenStore) : Option String :=
  match s.tokenData with
  | some d => if d.access_token = "" then none else some d.access_token
  | none => none

/-- `getRefreshToken` (tokenManager.ts 165-167). -/

def getRefreshToken (s : TokenStore) : Option String :=
  match s.tokenData with
  | some d => if d.refresh_token = "" then none else some d.refresh_token
  | none => none

/-- `REFRESH_BEFORE_EXPIRY` (tokenManager.ts 20): 5 minutes in ms. -/

def refreshBeforeExpiry : Nat := 5 * 60 * 1000

/-- `isTokenValid` (tokenManager.ts 169-174). -/

def isTokenValid (s : TokenStore) (now : Nat) : Bool :=
  match s.tokenData with
  | none => false
  | some d => decide (now < d.expires_at - refreshBeforeExpiry)

/-- `isRefreshTokenValid` (tokenManager.ts 176-181). -/

def isRefreshTokenValid (s : TokenStore) (now : Nat) : Bool :=
  match s.tokenData with
  | none => false
  | some d => decide (now < d.refresh_token_expires_at - refreshBeforeExpiry)

/-- `updateTokens` (tokenManager.ts 120-159): merge the patch over the
current data, restamp both expiry fields, and save the result to the file. -/

def updateTokens (s : TokenStore) (now : Nat) (p : TokenPatch) : TokenStore :=
  let old := s.tokenData
  let merged : TokenData := {
    access_token := p.access_token.getD (match old with | some d => d.access_token | none => "")
    refresh_token := p.refresh_token.getD (match old with | some d => d.refresh_token | none => "")
    expires_in := p.expires_in.getD (match old with | some d => d.expires_in | none => 0)
    expires_at := now + (p.expires_in.getD 0) * 1000
    refresh_token_expires_at := now + 30 * 24 * 60 * 60 * 1000 }
  { tokenData := some merged, file := some merged }

/-- `clearTokens` (tokenManager.ts 183-201): when the token file exists it is
removed and the in-memory data is reset; when it does not exist, nothing
changes. -/

def clearTokens (s : TokenStore) : TokenStore :=
  if s.file.isSome then { tokenData := none, file := none } else s

/-- Predetermined outcome of one remote token-exchange call. -/

inductive RefreshOutcome where
  | success (p : TokenPatch)
  | failure
deriving DecidableEq, Repr

/-- `SmartThingsAuth.refreshTokens` (auth.ts 85-114): with an empty refresh
token it throws before any remote call; otherwise it performs exactly one
remote token-exchange call and returns the response data without touching the
TokenManager.  Result: (remote token calls issued, returned data or error). -/

def refreshTokens (refreshToken : String) (outcome : RefreshOutcome) :
    Nat × Except Unit TokenPatch :=
  if refreshToken = "" then (0, .error ())
  else
    match outcome with
    | .success p => (1, .ok p)
    | .failure => (1, .error ())

/-- `checkAndRefreshTokens` (tokenManager.ts 51-78), one monitor tick:
skip unless token data with a refresh token exists and the access token is
within 5 minutes of expiry; otherwise call `refreshTokens` and, on success,
`updateTokens`; on failure start the auth flow.  Result: (new store, remote
token calls issued, auth flow started). -/

def checkAndRefreshTokens (s : TokenStore) (now : Nat) (outcome : RefreshOutcome) :
    TokenStore × Nat × Bool :=
  match s.tokenData with
  | none => (s, 0, false)
  | some d =>
    if d.refresh_token = "" then (s, 0, false)
    else if d.expires_at - now ≤ refreshBeforeExpiry then
      match refreshTokens d.refresh_token outcome with
      | (n, .ok p) => (updateTokens s now p, n, false)
      | (n, .error _) => (s, n, true)
    else (s, 0, false)

/-- What the 401 response interceptor does with the failed request. -/

inductive InterceptResult where
  | retryWith (authHeader : String)
  | rejected
deriving DecidableEq, Repr

/-- The 401 response interceptor (platform.ts 79-120): on a 401 whose request
was not yet retried, mark it retried, refresh via `auth.refreshTokens`
(discarding the returned data), re-read the access token from the unchanged
TokenManager, and retry with it; all other cases reject.  Result: (new store,
interceptor action, remote token calls issued, auth flow started). -/

def interceptor401 (s : TokenStore) (status : Nat) (alreadyRetried : Bool)
    (outcome : RefreshOutcome) : TokenStore × InterceptResult × Nat × Bool :=
  if status = 401 ∧ ¬alreadyRetried then
    match getRefreshToken s with
    | none => (s, .rejected, 0, true)
    | some rt =>
      match refreshTokens rt outcome with
      | (n, .ok _) =>
        -- 100-109: the refresh result is discarded; the header is rebuilt
        -- from this.auth.getAccessToken(), i.e. the pre-refresh token
        match getAccessToken s with
        | some tok => (s, .retryWith ("Bearer " ++ tok), n, false)
        | none => (s, .rejected, n, false)
      | (n, .error _) => (s, .rejected, n, true)
  else (s, .rejected, 0, false)

/-- `SmartThingsAuth.initialize` (auth.ts 157-183): when the access token is
missing or invalid, either refresh (discarding the result) or start the auth
flow.  Result: (new store, auth flow started, remote token calls issued). -/

def authInit (s : TokenStore) (now : Nat) (outcome : RefreshOutcome) :
    TokenStore × Bool × Nat :=
  if getAccessToken s = none ∨ ¬isTokenValid s now then
    if isRefreshTokenValid s now then
      match getRefreshToken s with
      | some rt =>
        match refreshTokens rt outcome with
        | (n, .ok _) => (s, false, n)    -- 166: result discarded, no updateTokens
        | (n, .error _) => (s, true, n)  -- 172-176: catch, startAuthFlow
      | none => (s, true, 0)             -- 167-171
    else (s, true, 0)                    -- 177-180
  else (s, false, 0)

/-- `SmartThingsAuth.handleCrashLoopRecovery` (auth.ts 189-204): clear the
tokens, then start a new auth flow.  Result: (new store, auth flow started). -/

def handleCrashLoopRecovery (s : TokenStore) : TokenStore × Bool :=
  (clearTokens s, true)

/-! # Crash-loop manager -/

/-- Modelled from the spec: the crash-loop window configuration
(src/auth/CrashLoopManager.ts is not among the sources; only its callers
are).  Spec §4.4: a rolling window of "N failures within W minutes". -/

structure CrashLoopConfig where
  maxCrashes : Nat
  windowMs : Nat
deriving DecidableEq, Repr

/-- Modelled from the spec: the pruning of the persisted crash records to the
rolling window (spec §4.4 recordPotentialCrash "prunes entries older than
W").  `records` holds the entry timestamps. -/

def pruneCrashWindow (now windowMs : Nat) (records : List Nat) : List Nat :=
  records.filter (fun t => now - t ≤ windowMs)

/-- Modelled from the spec: `CrashLoopManager.isCrashLoopDetected(config)`
(spec §4.4): true iff the pruned window contains at least N entries. -/

def isCrashLoopDetected (cfg : CrashLoopConfig) (now : Nat) (records : List Nat) : Bool :=
  decide ((pruneCrashWindow now cfg.windowMs records).length ≥ cfg.maxCrashes)

/-- The `didFinishLaunching` callback (platform.ts 126-189) up to device
discovery: if a crash loop is detected, run `handleCrashLoopRecovery` and
return without initializing auth or discovering devices; otherwise run
`auth.initialize` and attempt discovery only when no auth flow was started
and an access token is present.  Result: (new store, auth flow started,
discovery attempted). -/

def didFinishLaunching (cfg : CrashLoopConfig) (now : Nat) (records : List Nat)
    (s : TokenStore) (outcome : RefreshOutcome) : TokenStore × Bool × Bool :=
  if isCrashLoopDetected cfg now records then
    let r := handleCrashLoopRecovery s
    (r.1, r.2, false)
  else
    let r := authInit s now outcome
    if ¬r.2.1 ∧ (getAccessToken r.1).isSome then (r.1, false, true)
    else (r.1, r.2.1, false)

/-! # Concurrent refresh triggers (claim C6 machine)

Neither TokenManager, SmartThingsAuth nor the interceptor holds any
in-flight-refresh flag: the decision of `checkAndRefreshTokens`
(tokenManager.ts 51-63) and of the 401 handler (platform.ts 85-98) to call
`refreshTokens` depends only on the store, the clock and the request's own
`_retry` marker, so a trigger that fires while another refresh is pending
still issues its own remote token-exchange call. -/

/-- Program counters of concurrent refresh triggers.  `monitorEntry` is a
monitor tick at its expiry check; `h401Entry` is a 401 handler (with the
request's `_retry` flag) at its guard; `refreshPending` means the trigger has
issued its token-exchange call and awaits the response. -/

inductive RTask where
  | monitorEntry (outcome : RefreshOutcome)
  | h401Entry (alreadyRetried : Bool) (outcome : RefreshOutcome)
  | refreshPending (fromMonitor : Bool) (outcome : RefreshOutcome)
  | rtaskDone
deriving DecidableEq, Repr

/-- State for concurrently running refresh triggers. -/

structure RMachine where
  store : TokenStore
  now : Nat
  refreshCalls : Nat := 0
  tasks : List RTask
deriving DecidableEq, Repr

/-- One step of one refresh trigger; the entry steps are the guard code cited
above, the pending steps are the response handling (tokenManager.ts 67-76 /
platform.ts 98-115). -/

def rtaskStep (s : TokenStore) (now : Nat) : RTask → TokenStore × RTask × Nat
  | .monitorEntry outcome =>
    match s.tokenData with
    | none => (s, .rtaskDone, 0)
    | some d =>
      if d.refresh_token = "" then (s, .rtaskDone, 0)
      else if d.expires_at - now ≤ refreshBeforeExpiry then
        -- issues the token-exchange call; no in-flight check exists
        (s, .refreshPending true outcome, 1)
      else (s, .rtaskDone, 0)
  | .h401Entry alreadyRetried outcome =>
    if alreadyRetried then (s, .rtaskDone, 0)
    else
      match getRefreshToken s with
      | none => (s, .rtaskDone, 0)
      | some _ => (s, .refreshPending false outcome, 1)
  | .refreshPending fromMonitor outcome =>
    match outcome with
    | .success p =>
      if fromMonitor then (updateTokens s now p, .rtaskDone, 0)
      else (s, .rtaskDone, 0)   -- 401 path discards the result (platform.ts 98-108)
    | .failure => (s, .rtaskDone, 0)
  | .rtaskDone => (s, .rtaskDone, 0)

/-- Run one scheduler choice on the refresh-trigger machine. -/

def rstepTask (m : RMachine) (i : Nat) : RMachine :=
  match m.tasks[i]? with
  | none => m
  | some t =>
    let r := rtaskStep m.store m.now t
    { m with store := r.1, refreshCalls := m.refreshCalls + r.2.2,
             tasks := m.tasks.set i r.2.1 }

/-- Run a whole schedule on the refresh-trigger machine. -/

def rexecTrace (m : RMachine) (sched : List Nat) : RMachine :=
  sched.foldl rstepTask m

/-! # Resolution invariants (claims C1 and C5) -/

/-- Two adapters hold disjoint capability sets: no capability is bound to
both. -/

def AdapterCapsDisjoint (a b : Adapter) : Prop :=
  ∀ c, c ∈ a.capabilities → c ∉ b.capabilities

instance : DecidableRel AdapterCapsDisjoint := fun a b =>
  inferInstanceAs (Decidable (∀ c, c ∈ a.capabilities → c ∉ b.capabilities))

/-- The invariant maintained across resolution: relative to the component's
declared capability set `caps0`, the uncovered list is a subset of `caps0`,
every adapter's capabilities are a subset of `caps0`, the adapters are
pairwise disjoint, and no uncovered capability is held by an adapter. -/

def ResolutionInv (caps0 : List String) (st : List Adapter × List String) : Prop :=
  (∀ c ∈ st.2, c ∈ caps0) ∧
  (∀ a ∈ st.1, ∀ c ∈ a.capabilities, c ∈ caps0) ∧
  st.1.Pairwise AdapterCapsDisjoint ∧
  (∀ a ∈ st.1, ∀ c ∈ st.2, c ∉ a.capabilities)

/-- The one situation in which resolution double-binds a capability: the
Television heuristic fires on the component, its claimed TV capability set
contains "switch", and the legacy-switch retention policy keeps the legacy
switch adapter (`removeLegacySwitchForTV` not set to true), so "switch" is
pushed back into the uncovered list (multiServiceAccessory.ts 311-315) while
the Television adapter already holds it. -/

def legacySwitchRetained (cfg : ResolutionConfig) (deviceIsTv : Bool)
    (componentId : String) (capabilities : List String) : Prop :=
  cfg.enableTelevisionService ≠ some false ∧ componentId = "main" ∧ deviceIsTv = true ∧
  (getTvCapabilities.filter (fun cap => capabilities.contains cap)).contains "switch" = true ∧
  cfg.removeLegacySwitchForTV ≠ some true

instance (cfg : ResolutionConfig) (tv : Bool) (cid : String) (caps : List String) :
    Decidable (legacySwitchRetained cfg tv cid caps) :=
  inferInstanceAs (Decidable (cfg.enableTelevisionService ≠ some false ∧ cid = "main" ∧
    tv = true ∧
    (getTvCapabilities.filter (fun cap => caps.contains cap)).contains "switch" = true ∧
    cfg.removeLegacySwitchForTV ≠ some true))

/-! # Synchronizer invariants (claims C2, C3, C4, C8, C9) -/

/-- The reachable shapes of a run in which one `sendCommands` call is already
in flight (its POST issued, `commandInProgress` set) and a second
`sendCommands` call has arrived at its entry check: the second call's POST
can begin only after the first has completed. -/

def SendSerialInv (ok2 : Bool) (m : Machine) : Prop :=
  ((∃ a, m.tasks = [.sendInFlight a, .sendEntry ok2]) ∧ m.dev.commandInProgress = true) ∨
  ((∃ a, m.tasks = [.sendInFlight a, .sendWaiting ok2]) ∧ m.dev.commandInProgress = true) ∨
  ((∃ r, m.tasks = [.taskDone r, .sendEntry ok2]) ∧ m.dev.commandInProgress = false) ∨
  ((∃ r, m.tasks = [.taskDone r, .sendWaiting ok2]) ∧ m.dev.commandInProgress = false) ∨
  ((∃ r, m.tasks = [.taskDone r, .sendQueued ok2]) ∧ m.dev.commandInProgress = false) ∨
  ((∃ r, m.tasks = [.taskDone r, .sendInFlight ok2]) ∧ m.dev.commandInProgress = true) ∨
  (∃ r s, m.tasks = [.taskDone r, .taskDone s])

/-- The reachable shapes of a run in which one `sendCommands` call is in
flight and one `refreshStatus` call has arrived at its entry: the status GET
can begin only after the command has completed. -/

def CmdRefreshExclInv (okr : Bool) (m : Machine) : Prop :=
  ((∃ a, m.tasks = [.sendInFlight a, .refreshEntry okr]) ∧
    m.dev.commandInProgress = true ∧ m.dev.statusQueryInProgress = false) ∨
  ((∃ a, m.tasks = [.sendInFlight a, .refreshWaitCmd okr]) ∧
    m.dev.commandInProgress = true ∧ m.dev.statusQueryInProgress = true) ∨
  ((∃ a r, m.tasks = [.sendInFlight a, .taskDone r]) ∧ m.dev.commandInProgress = true) ∨
  ((∃ r, m.tasks = [.taskDone r, .refreshEntry okr]) ∧
    m.dev.commandInProgress = false ∧ m.dev.statusQueryInProgress = false) ∨
  ((∃ r, m.tasks = [.taskDone r, .refreshWaitCmd okr]) ∧
    m.dev.commandInProgress = false ∧ m.dev.statusQueryInProgress = true) ∨
  ((∃ r, m.tasks = [.taskDone r, .refreshQueuedFetch okr]) ∧
    m.dev.commandInProgress = false ∧ m.dev.statusQueryInProgress = true) ∨
  ((∃ r, m.tasks = [.taskDone r, .refreshInFlight okr]) ∧
    m.dev.commandInProgress = false ∧ m.dev.statusQueryInProgress = true) ∨
  (∃ r s, m.tasks = [.taskDone r, .taskDone s])

/-- The reachable shapes of a run in which one `refreshStatus` fetch is in
flight (GET issued, `statusQueryInProgress` set, `lastStatusResult` set true
at 433) and a second `refreshStatus` caller is waiting on it: the waiter
issues no GET of its own and both callers end with the fetch's result. -/

def RefreshFanoutInv (ok : Bool) (sc : Nat) (m : Machine) : Prop :=
  m.statusCalls = sc ∧
  ((m.tasks = [.refreshInFlight ok, .refreshAwaitQuery] ∧
      m.dev.statusQueryInProgress = true ∧ m.dev.lastStatusResult = true) ∨
   (m.tasks = [.taskDone ok, .refreshAwaitQuery] ∧
      m.dev.statusQueryInProgress = false ∧ m.dev.lastStatusResult = ok) ∨
   (m.tasks = [.taskDone ok, .refreshResolveQueued] ∧
      m.dev.statusQueryInProgress = false ∧ m.dev.lastStatusResult = ok) ∨
   (m.tasks = [.taskDone ok, .taskDone ok]))

/-! # Invariant predicates and concrete configurations used by the claims -/

/-- A task state belonging to a `sendCommands` run (or a finished task);
`taskStep` never reads or writes `online` in these states. -/
def isSendish : TaskState → Bool
  | .sendEntry _ => true
  | .sendWaiting _ => true
  | .sendQueued _ => true
  | .sendInFlight _ => true
  | .taskDone _ => true
  | _ => false

/-- Replace the device's online flag. -/
def setOnline (m : Machine) (b : Bool) : Machine :=
  { m with dev := { m.dev with online := b } }

/-- Two back-to-back `sendCommands` calls in one synchronous turn: both
tasks are at their entry check, no command yet in flight. -/
def backToBackSendMachine : Machine :=
  { dev := {}, clock := 1000000, tasks := [.sendEntry true, .sendEntry true] }

/-- A command POST in flight and a second `sendCommands` call at its entry
check. -/
def c4m1 : Machine :=
  ⟨{ commandInProgress := true }, 0, 0, 1, [.sendInFlight true, .sendEntry true]⟩

/-- A command POST in flight and a `refreshStatus` call at its entry. -/
def c4m2 : Machine :=
  ⟨{ commandInProgress := true }, 0, 0, 1, [.sendInFlight true, .refreshEntry true]⟩

/-- One complete `refreshStatus` cycle whose remote GET fails: the entry
step, the queued fetch callback, and the failure handler. -/
def failedRefreshCycle (d : Dev) (clk : Nat) : Dev :=
  (execTrace { dev := d, clock := clk, tasks := [.refreshEntry false] } [0, 0, 0]).dev

/-- Six consecutive failed status fetches from the initial device state, at
100 s intervals. -/
def sixFailedRefreshes : Dev :=
  failedRefreshCycle (failedRefreshCycle (failedRefreshCycle (failedRefreshCycle
    (failedRefreshCycle (failedRefreshCycle {} 100000) 200000) 300000) 400000)
    500000) 600000

/-- The device state after one successful `sendCommands` run completing at
clock 1000000000003 (a realistic epoch-milliseconds value). -/
def commandCompletedDev : Dev :=
  (execTrace { dev := {}, clock := 1000000000000, tasks := [.sendEntry true] } [0, 0, 0]).dev

/-- A `sendCommands` call on an offline device. -/
def offlineSendMachine : Machine :=
  { dev := { online := false }, clock := 1000000, tasks := [.sendEntry true] }

/-- A `sendCommands` call on an online device (for the online-independence
witness). -/
def anySendMachine : Machine := { dev := {}, clock := 77, tasks := [.sendEntry true] }

/-- A token record whose access token expired long ago but whose refresh
token is still valid. -/
def tdExpiring : TokenData :=
  { access_token := "oldA", refresh_token := "rt", expires_in := 3600,
    expires_at := 1000, refresh_token_expires_at := 999999999999 }

/-- A token store holding `tdExpiring` in memory and on disk. -/
def stExpiring : TokenStore := { tokenData := some tdExpiring, file := some tdExpiring }

/-- A monitor tick and a 401 handler both triggering a refresh on the same
expiring store. -/
def doubleTriggerMachine : RMachine :=
  { store := stExpiring, now := 1000000000,
    tasks := [.monitorEntry (.success {}), .h401Entry false (.success {})] }

/-- A valid token record for the frame-effect witnesses. -/
def wTokenData : TokenData :=
  { access_token := "tokA", refresh_token := "tokR", expires_in := 3600,
    expires_at := 1000, refresh_token_expires_at := 2000 }

/-- A token store holding `wTokenData`. -/
def wStore : TokenStore := { tokenData := some wTokenData, file := some wTokenData }

/-! # Proof development -/

/-- A schedule-invariant is preserved along every trace once it is preserved
by every single step. -/

theorem execTrace_inv (Inv : Machine → Prop)
    (h : ∀ m i, Inv m → Inv (stepTask m i)) :
    ∀ sched m, Inv m → Inv (execTrace m sched) := by
  intro sched
  induction sched with
  | nil => intro m hm; exact hm
  | cons i rest ih =>
    intro m hm
    exact ih (stepTask m i) (h m i hm)

theorem registerService_inv {caps0 : List String} {ads : List Adapter}
    {cover caps opt : List String} {cid : String} {svc : ServiceKind}
    (h : ResolutionInv caps0 (ads, cover)) :
    ResolutionInv caps0
      (ads ++ (registerServiceIfMatchesCapabilities cid cover caps opt svc).1,
       (registerServiceIfMatchesCapabilities cid cover caps opt svc).2) := by
  obtain ⟨h1, h2, h3, h4⟩ := h
  unfold registerServiceIfMatchesCapabilities
  split
  · -- the rule fires
    rename_i hall
    simp only
    set allCaps := caps ++ opt.filter (fun e => cover.contains e) with hAC
    have hsub : ∀ c ∈ allCaps, c ∈ cover := by
      intro c hc
      rcases List.mem_append.mp hc with hc | hc
      · have := List.all_eq_true.mp hall c hc
        simpa using this
      · have := (List.mem_filter.mp hc).2
        simpa using this
    refine ⟨?_, ?_, ?_, ?_⟩
    · intro c hc
      exact h1 c (List.mem_filter.mp hc).1
    · intro a ha c hc
      rcases List.mem_append.mp ha with ha | ha
      · exact h2 a ha c hc
      · have : a = (⟨cid, allCaps, svc⟩ : Adapter) := by simpa using ha
        subst this
        exact h1 c (hsub c hc)
    · rw [List.pairwise_append]
      refine ⟨h3, by simp [AdapterCapsDisjoint], ?_⟩
      intro a ha b hb
      have hbA : b = (⟨cid, allCaps, svc⟩ : Adapter) := by simpa using hb
      subst hbA
      intro c hca hcb
      exact h4 a ha c (hsub c hcb) hca
    · intro a ha c hc
      have hc' := List.mem_filter.mp hc
      rcases List.mem_append.mp ha with ha | ha
      · exact h4 a ha c hc'.1
      · have : a = (⟨cid, allCaps, svc⟩ : Adapter) := by simpa using ha
        subst this
        simpa using hc'.2
  · simpa using ⟨h1, h2, h3, h4⟩

theorem foldl_resolution_inv {χ : Type} (caps0 : List String)
    (f : List Adapter × List String → χ → List Adapter × List String)
    (hf : ∀ st x, ResolutionInv caps0 st → ResolutionInv caps0 (f st x)) :
    ∀ (l : List χ) st, ResolutionInv caps0 st → ResolutionInv caps0 (l.foldl f st) := by
  intro l
  induction l with
  | nil => intro st h; exact h
  | cons x xs ih => intro st h; exact ih (f st x) (hf st x h)

theorem comboResolutionStep_inv {caps0 : List String} {cid : String}
    {st : List Adapter × List String} (h : ResolutionInv caps0 st) :
    ResolutionInv caps0 (comboResolutionStep cid st) := by
  unfold comboResolutionStep
  refine foldl_resolution_inv caps0 _ ?_ _ st h
  intro st entry hst
  obtain ⟨ads, cover⟩ := st
  exact registerService_inv hst

theorem singleResolutionStep_inv {caps0 : List String} {cfg : ResolutionConfig}
    {cid : String} {st : List Adapter × List String} (h : ResolutionInv caps0 st) :
    ResolutionInv caps0 (singleResolutionStep cfg cid st) := by
  unfold singleResolutionStep
  refine foldl_resolution_inv caps0 _ ?_ _ st h
  intro st p hst
  obtain ⟨ads, cover⟩ := st
  split
  · exact hst
  · exact registerService_inv hst

theorem tvResolutionStep_inv {cfg : ResolutionConfig} {tv : Bool} {cid : String}
    {caps : List String} (h : ¬ legacySwitchRetained cfg tv cid caps) :
    ResolutionInv caps (tvResolutionStep cfg tv cid caps) := by
  have triv : ResolutionInv caps ([], caps) := by
    refine ⟨fun c hc => hc, by simp, by simp, by simp⟩
  unfold tvResolutionStep
  simp only
  split
  case isFalse => exact triv
  case isTrue hcond =>
    split
    case isFalse => exact triv
    case isTrue hlen =>
      set tvF := getTvCapabilities.filter (fun cap => caps.contains cap) with htvF
      set ctc0 := caps.filter (fun cap => !tvF.contains cap) with hctc0
      have hNoPush :
          (if cfg.removeLegacySwitchForTV = some true ∧ tvF.contains "switch" then ctc0
           else if tvF.contains "switch" then ctc0 ++ ["switch"] else ctc0) = ctc0 := by
        by_cases hsw : tvF.contains "switch" = true
        · have hrm : cfg.removeLegacySwitchForTV = some true := by
            by_contra hrm
            exact h ⟨hcond.1, hcond.2.1, hcond.2.2, hsw, hrm⟩
          rw [if_pos ⟨hrm, hsw⟩]
        · rw [if_neg (fun hx => hsw hx.2), if_neg hsw]
      rw [hNoPush]
      have htvSub : ∀ c ∈ tvF, c ∈ caps := by
        intro c hc
        have := (List.mem_filter.mp hc).2
        simpa using this
      have hctcSub : ∀ c ∈ ctc0, c ∈ caps := fun c hc => (List.mem_filter.mp hc).1
      have hctcSep : ∀ c ∈ ctc0, c ∉ tvF := by
        intro c hc
        have := (List.mem_filter.mp hc).2
        simpa using this
      split
      case isFalse =>
        exact ⟨hctcSub, by simpa using htvSub, by simp [AdapterCapsDisjoint],
          by simpa using hctcSep⟩
      case isTrue hvolcond =>
        set volF := getVolumeSliderCapabilities.filter (fun cap => caps.contains cap) with hvolF
        have hvolSub : ∀ c ∈ volF, c ∈ caps := by
          intro c hc
          have := (List.mem_filter.mp hc).2
          simpa using this
        have htv_vol : ∀ c ∈ tvF, c ∉ volF := by
          intro c hc hc'
          have h1 : c ∈ getTvCapabilities := (List.mem_filter.mp hc).1
          have h2 : c ∈ getVolumeSliderCapabilities := (List.mem_filter.mp hc').1
          have : c = "audioVolume" := by simpa [getVolumeSliderCapabilities] using h2
          subst this
          simp [getTvCapabilities] at h1
        split
        case isFalse =>
          exact ⟨hctcSub, by simpa using htvSub, by simp [AdapterCapsDisjoint],
            by simpa using hctcSep⟩
        case isTrue hvlen =>
          refine ⟨?_, ?_, ?_, ?_⟩
          · intro c hc
            exact hctcSub c (List.mem_filter.mp hc).1
          · intro a ha c hc
            rcases (by simpa using ha : a = (⟨cid, tvF, .television⟩ : Adapter) ∨
                a = (⟨cid, volF, .volumeSlider⟩ : Adapter)) with ha | ha
            · subst ha; exact htvSub c hc
            · subst ha; exact hvolSub c hc
          · refine List.pairwise_cons.mpr ⟨?_, by simp [AdapterCapsDisjoint]⟩
            intro b hb
            have : b = (⟨cid, volF, .volumeSlider⟩ : Adapter) := by simpa using hb
            subst this
            exact fun c hc hc' => htv_vol c hc hc'
          · intro a ha c hc
            have hc1 := List.mem_filter.mp hc
            have hcv : c ∉ volF := by simpa using hc1.2
            have hct : c ∉ tvF := hctcSep c hc1.1
            rcases (by simpa using ha : a = (⟨cid, tvF, .television⟩ : Adapter) ∨
                a = (⟨cid, volF, .volumeSlider⟩ : Adapter)) with ha | ha
            · subst ha; exact hct
            · subst ha; exact hcv

set_option maxHeartbeats 2000000 in

theorem sendSerialInv_step (ok2 : Bool) :
    ∀ m i, SendSerialInv ok2 m → SendSerialInv ok2 (stepTask m i) := by
  intro m i h
  rcases h with ⟨⟨a, ht⟩, hc⟩ | ⟨⟨a, ht⟩, hc⟩ | ⟨⟨a, ht⟩, hc⟩ | ⟨⟨a, ht⟩, hc⟩ |
    ⟨⟨a, ht⟩, hc⟩ | ⟨⟨a, ht⟩, hc⟩ | ⟨a, b, ht⟩ <;>
    rcases i with _ | _ | i <;>
    cases ok2 <;>
    cases a <;>
    simp_all [stepTask, taskStep, SendSerialInv]

set_option maxHeartbeats 1000000 in

theorem cmdRefreshExclInv_step (okr : Bool) :
    ∀ m i, CmdRefreshExclInv okr m → CmdRefreshExclInv okr (stepTask m i) := by
  intro m i h
  obtain ⟨dev, clk, sc, pc, tasks⟩ := m
  obtain ⟨onl, ts, fc, gt, cip, lcc, sqip, lsr⟩ := dev
  rcases h with ⟨⟨a, ht⟩, hc, hs⟩ | ⟨⟨a, ht⟩, hc, hs⟩ | ⟨⟨a, b, ht⟩, hc⟩ |
    ⟨⟨a, ht⟩, hc, hs⟩ | ⟨⟨a, ht⟩, hc, hs⟩ | ⟨⟨a, ht⟩, hc, hs⟩ |
    ⟨⟨a, ht⟩, hc, hs⟩ | ⟨a, b, ht⟩ <;>
    simp only at * <;>
    subst ht <;>
    first
    | (subst hc; subst hs
       rcases i with _ | _ | i <;>
         simp [stepTask, taskStep, CmdRefreshExclInv] <;>
         split <;>
         (try split) <;>
         simp_all [CmdRefreshExclInv])
    | (subst hc
       rcases i with _ | _ | i <;>
         simp [stepTask, taskStep, CmdRefreshExclInv] <;>
         split <;>
         (try split) <;>
         simp_all [CmdRefreshExclInv])
    | (rcases i with _ | _ | i <;>
         simp [stepTask, taskStep, CmdRefreshExclInv] <;>
         split <;>
         (try split) <;>
         simp_all [CmdRefreshExclInv])

set_option maxHeartbeats 1000000 in

theorem refreshFanoutInv_step (ok : Bool) (sc : Nat) :
    ∀ m i, RefreshFanoutInv ok sc m → RefreshFanoutInv ok sc (stepTask m i) := by
  intro m i h
  obtain ⟨dev, clk, msc, pc, tasks⟩ := m
  obtain ⟨onl, ts, fc, gt, cip, lcc, sqip, lsr⟩ := dev
  obtain ⟨hsc, h⟩ := h
  cases ok <;>
    rcases h with ⟨ht, hq, hl⟩ | ⟨ht, hq, hl⟩ | ⟨ht, hq, hl⟩ | ht <;>
    simp only at * <;>
    subst ht <;> subst hsc <;>
    (try subst hq) <;> (try subst hl) <;>
    rcases i with _ | _ | i <;>
    simp [stepTask, taskStep, RefreshFanoutInv] <;>
    (try split) <;>
    (try split) <;>
    simp_all [RefreshFanoutInv]

theorem taskStep_online_frame (d : Dev) (clk : Nat) (t : TaskState) (b : Bool)
    (h : isSendish t = true) :
    taskStep { d with online := b } clk t =
      { dev := { (taskStep d clk t).dev with online := b },
        task := (taskStep d clk t).task,
        statusCalls := (taskStep d clk t).statusCalls,
        postCalls := (taskStep d clk t).postCalls } ∧
    isSendish (taskStep d clk t).task = true := by
  cases t <;>
    simp_all [isSendish, taskStep] <;>
    (try split) <;>
    simp_all [isSendish]

theorem stepTask_online_frame (m : Machine) (b : Bool) (i : Nat)
    (h : m.tasks.all isSendish = true) :
    stepTask (setOnline m b) i = setOnline (stepTask m i) b ∧
    (stepTask m i).tasks.all isSendish = true := by
  cases hmi : m.tasks[i]? with
  | none => simp [stepTask, setOnline, hmi, h]
  | some t =>
    have hts : isSendish t = true := by
      have hmem : t ∈ m.tasks := List.getElem?_mem hmi
      exact List.all_eq_true.mp h t hmem
    have hf := taskStep_online_frame m.dev m.clock t b hts
    constructor
    · simp [stepTask, setOnline, hmi, hf.1]
    · simp only [stepTask, hmi]
      refine List.all_eq_true.mpr ?_
      intro x hx
      rcases List.mem_or_eq_of_mem_set hx with hx | hx
      · exact List.all_eq_true.mp h x hx
      · subst hx; exact hf.2

theorem execTrace_online_frame :
    ∀ (sched : List Nat) (m : Machine) (b : Bool), m.tasks.all isSendish = true →
      execTrace (setOnline m b) sched = setOnline (execTrace m sched) b := by
  intro sched
  induction sched with
  | nil => intro m b h; rfl
  | cons i rest ih =>
    intro m b h
    have hs := stepTask_online_frame m b i h
    show execTrace (stepTask (setOnline m b) i) rest = _
    rw [hs.1]
    exact ih (stepTask m i) b hs.2

theorem getRefreshToken_ne_empty {s : TokenStore} {rt : String}
    (h : getRefreshToken s = some rt) : rt ≠ "" := by
  unfold getRefreshToken at h
  split at h
  · split at h
    · simp at h
    · rename_i hne
      injection h with h
      intro hc
      exact hne (h.trans hc)
  · simp at h

/-! # The claims -/

/-- C1 (counterexample): on a TV device's main component with capability set
{switch} and default configuration (television service enabled, legacy switch
retained), addComponent binds "switch" to BOTH the Television adapter and a
legacy Switch adapter, so the adapters' capability sets are not pairwise
disjoint. -/

theorem claim1_counterexample :
    addComponent {} true "main" ["switch"] =
      [⟨"main", ["switch"], .television⟩, ⟨"main", ["switch"], .switch⟩] ∧
    ¬ (addComponent {} true "main" ["switch"]).Pairwise AdapterCapsDisjoint := by
  constructor
  · decide
  · decide

/-- C1 (amended): every adapter produced by addComponent covers only declared
capabilities of the component, and the adapters are pairwise
capability-disjoint provided the Television heuristic does not fire with the
legacy-switch retention policy (which re-adds "switch" to the uncovered list
after the Television adapter has claimed it). -/

theorem claim1_theorem (cfg : ResolutionConfig) (tv : Bool)
    (cid : String) (caps : List String)
    (h : ¬ legacySwitchRetained cfg tv cid caps) :
    (∀ a ∈ addComponent cfg tv cid caps, ∀ c ∈ a.capabilities, c ∈ caps) ∧
    (addComponent cfg tv cid caps).Pairwise AdapterCapsDisjoint := by
  have hinv : ResolutionInv caps
      (singleResolutionStep cfg cid (comboResolutionStep cid
        (tvResolutionStep cfg tv cid caps))) :=
    singleResolutionStep_inv (comboResolutionStep_inv (tvResolutionStep_inv h))
  exact ⟨by simpa [addComponent] using hinv.2.1,
         by simpa [addComponent] using hinv.2.2.1⟩

/-- C1 (witness): with removeLegacySwitchForTV set, the amended claim applies
to the TV device {switch, tvChannel, audioVolume}. -/

theorem claim1_witness :
    (¬ legacySwitchRetained { removeLegacySwitchForTV := some true } true "main"
        ["switch", "tvChannel", "audioVolume"]) ∧
    ((∀ a ∈ addComponent { removeLegacySwitchForTV := some true } true "main"
        ["switch", "tvChannel", "audioVolume"],
        ∀ c ∈ a.capabilities, c ∈ ["switch", "tvChannel", "audioVolume"]) ∧
      (addComponent { removeLegacySwitchForTV := some true } true "main"
        ["switch", "tvChannel", "audioVolume"]).Pairwise AdapterCapsDisjoint) :=
  ⟨by decide, claim1_theorem _ _ _ _ (by decide)⟩

/-- C2 (confirmed): a refreshStatus call whose cache is at most 5 s old
resolves true with no remote call (so a second call within 5 s of a
successful fetch issues no second GET and returns the same true result); a
call arriving while a fetch is in flight issues no GET but waits; and from
the waiting configuration, under every schedule, no further GET is issued
and both the fetcher and the waiter end with the in-flight fetch's result. -/

theorem claim2_theorem :
    (∀ (d : Dev) (clk : Nat) (a : Bool), clk - d.deviceStatusTimestamp ≤ 5000 →
      taskStep d clk (.refreshEntry a) = ⟨d, .taskDone true, 0, 0⟩) ∧
    (∀ (d : Dev) (clk : Nat) (a : Bool), d.statusQueryInProgress = true →
      clk - d.deviceStatusTimestamp > 5000 →
      taskStep d clk (.refreshEntry a) = ⟨d, .refreshAwaitQuery, 0, 0⟩) ∧
    (∀ (d : Dev) (clk sc pc : Nat) (ok : Bool) (sched : List Nat),
      d.statusQueryInProgress = true → d.lastStatusResult = true →
      (execTrace ⟨d, clk, sc, pc, [.refreshInFlight ok, .refreshAwaitQuery]⟩ sched).statusCalls = sc ∧
      (∀ r, (execTrace ⟨d, clk, sc, pc, [.refreshInFlight ok, .refreshAwaitQuery]⟩ sched).tasks[1]? =
        some (.taskDone r) → r = ok) ∧
      (∀ r, (execTrace ⟨d, clk, sc, pc, [.refreshInFlight ok, .refreshAwaitQuery]⟩ sched).tasks[0]? =
        some (.taskDone r) → r = ok)) := by
  refine ⟨?_, ?_, ?_⟩
  · intro d clk a h
    simp only [taskStep]
    rw [if_neg (by omega)]
  · intro d clk a hq h
    simp only [taskStep]
    rw [if_pos (by omega), if_pos (by simpa using hq)]
  · intro d clk sc pc ok sched hq hl
    have hinv : RefreshFanoutInv ok sc
        (execTrace ⟨d, clk, sc, pc, [.refreshInFlight ok, .refreshAwaitQuery]⟩ sched) := by
      refine execTrace_inv _ (refreshFanoutInv_step ok sc) sched _ ⟨rfl, ?_⟩
      exact Or.inl ⟨rfl, hq, hl⟩
    obtain ⟨hsc, hshape⟩ := hinv
    refine ⟨hsc, ?_, ?_⟩ <;>
      rcases hshape with ⟨ht, _, _⟩ | ⟨ht, _, _⟩ | ⟨ht, _, _⟩ | ht <;>
      intro r hr <;>
      simp_all

/-- C2 (witness): the cached path at a concrete 3-second-old snapshot, and
the fan-out path on a concrete waiting configuration. -/

theorem claim2_witness :
    (((1003000 : Nat) - ({ deviceStatusTimestamp := 1000000 } : Dev).deviceStatusTimestamp ≤ 5000) ∧
      taskStep { deviceStatusTimestamp := 1000000 } 1003000 (.refreshEntry true) =
        ⟨{ deviceStatusTimestamp := 1000000 }, .taskDone true, 0, 0⟩) ∧
    (({ statusQueryInProgress := true } : Dev).statusQueryInProgress = true ∧
      (execTrace ⟨{ statusQueryInProgress := true }, 9000, 1, 0,
        [.refreshInFlight true, .refreshAwaitQuery]⟩ [1, 0, 1, 1]).statusCalls = 1) :=
  ⟨⟨by decide, claim2_theorem.1 { deviceStatusTimestamp := 1000000 } 1003000 true (by decide)⟩,
   ⟨rfl, (claim2_theorem.2.2 { statusQueryInProgress := true } 9000 1 0 true [1, 0, 1, 1]
      rfl rfl).1⟩⟩

/-- C3 (code bug): six consecutive failed status fetches leave the device
online with failureCount 1 and no offline timestamp, because refreshStatus
resets failureCount to 0 at the start of every fetch
(multiServiceAccessory.ts 431), so the threshold of 5 at line 471 is never
reached; the claimed offline transition after 5 consecutive failures cannot
occur. -/

theorem claim3_theorem :
    sixFailedRefreshes.online = true ∧ sixFailedRefreshes.failureCount = 1 ∧
    sixFailedRefreshes.giveUpTime = 0 := by
  decide

/-- C4 (counterexample): two sendCommands calls issued back-to-back in the
same synchronous turn both pass the waitFor check before either queued
callback sets commandInProgress (the forced promise schedule: both entry
checks run synchronously, then both callbacks), so both POSTs are in flight
simultaneously and two remote calls are issued. -/

theorem claim4_counterexample :
    (execTrace backToBackSendMachine [0, 1, 0, 1]).tasks =
      [.sendInFlight true, .sendInFlight true] ∧
    (execTrace backToBackSendMachine [0, 1, 0, 1]).postCalls = 2 := by
  decide

/-- C4 (amended): once the first sendCommands call has started its POST
(commandInProgress set), a second sendCommands call arriving at its entry
check is strictly serialized behind it under every schedule, and a
refreshStatus call arriving at its entry likewise starts its GET only after
the command completes. -/

theorem claim4_theorem (d : Dev) (ok1 ok2 okr : Bool) (c1 s1 p1 c2 s2 p2 : Nat)
    (sched1 sched2 : List Nat)
    (hc : d.commandInProgress = true) (hs : d.statusQueryInProgress = false) :
    (∀ b, (execTrace ⟨d, c1, s1, p1, [.sendInFlight ok1, .sendEntry ok2]⟩ sched1).tasks[1]? =
        some (.sendInFlight b) →
      ∃ r, (execTrace ⟨d, c1, s1, p1, [.sendInFlight ok1, .sendEntry ok2]⟩ sched1).tasks[0]? =
        some (.taskDone r)) ∧
    (∀ b, (execTrace ⟨d, c2, s2, p2, [.sendInFlight ok1, .refreshEntry okr]⟩ sched2).tasks[1]? =
        some (.refreshInFlight b) →
      ∃ r, (execTrace ⟨d, c2, s2, p2, [.sendInFlight ok1, .refreshEntry okr]⟩ sched2).tasks[0]? =
        some (.taskDone r)) := by
  constructor
  · have hinv : SendSerialInv ok2
        (execTrace ⟨d, c1, s1, p1, [.sendInFlight ok1, .sendEntry ok2]⟩ sched1) := by
      refine execTrace_inv _ (sendSerialInv_step ok2) sched1 _ ?_
      exact Or.inl ⟨⟨ok1, rfl⟩, hc⟩
    rcases hinv with ⟨⟨a, ht⟩, _⟩ | ⟨⟨a, ht⟩, _⟩ | ⟨⟨a, ht⟩, _⟩ | ⟨⟨a, ht⟩, _⟩ |
      ⟨⟨a, ht⟩, _⟩ | ⟨⟨a, ht⟩, _⟩ | ⟨a, b, ht⟩ <;>
      intro b' hb <;>
      simp_all
  · have hinv : CmdRefreshExclInv okr
        (execTrace ⟨d, c2, s2, p2, [.sendInFlight ok1, .refreshEntry okr]⟩ sched2) := by
      refine execTrace_inv _ (cmdRefreshExclInv_step okr) sched2 _ ?_
      exact Or.inl ⟨⟨ok1, rfl⟩, hc, hs⟩
    rcases hinv with ⟨⟨a, ht⟩, _, _⟩ | ⟨⟨a, ht⟩, _, _⟩ | ⟨⟨a, b, ht⟩, _⟩ |
      ⟨⟨a, ht⟩, _, _⟩ | ⟨⟨a, ht⟩, _, _⟩ | ⟨⟨a, ht⟩, _, _⟩ | ⟨⟨a, ht⟩, _, _⟩ | ⟨a, b, ht⟩ <;>
      intro b' hb <;>
      simp_all

/-- C4 (witness): the amended serialization claim at a concrete device state
and concrete schedules. -/

theorem claim4_witness :
    (∀ b, (execTrace c4m1 [1, 0, 1, 1]).tasks[1]? = some (.sendInFlight b) →
      ∃ r, (execTrace c4m1 [1, 0, 1, 1]).tasks[0]? = some (.taskDone r)) ∧
    (∀ b, (execTrace c4m2 [1, 0, 1, 1, 1]).tasks[1]? = some (.refreshInFlight b) →
      ∃ r, (execTrace c4m2 [1, 0, 1, 1, 1]).tasks[0]? = some (.taskDone r)) :=
  claim4_theorem { commandInProgress := true } true true true 0 0 1 0 0 1
    [1, 0, 1, 1] [1, 0, 1, 1, 1] rfl rfl

/-- C5 (confirmed): the combination table is evaluated in descending order
of required-set size with ties kept in declaration order; a rule whose
required set is covered claims required plus matching optional capabilities;
the component {switch, fanSpeed, switchLevel} resolves to exactly one
3-capability FanSwitchLevel adapter, and an air-conditioner component claims
the matching optional capability as well. -/

theorem claim5_theorem :
    sortCombosDesc comboCapabilityMap =
      [ { capabilities := ["switch", "airConditionerMode", "airConditionerFanMode",
            "thermostatCoolingSetpoint", "temperatureMeasurement"],
          optionalCapabilities := ["fanOscillationMode", "relativeHumidityMeasurement",
            "custom.airConditionerOptionalMode"],
          service := .airConditioner },
        { capabilities := ["temperatureMeasurement", "thermostatMode",
            "thermostatHeatingSetpoint", "thermostatCoolingSetpoint"],
          service := .thermostat },
        { capabilities := ["switch", "fanSpeed", "switchLevel"], service := .fanSwitchLevel },
        { capabilities := ["switch", "fanSpeed"], service := .fanSpeed },
        { capabilities := ["switch", "switchLevel"], service := .light },
        { capabilities := ["switch", "colorControl"], service := .light },
        { capabilities := ["switch", "colorTemperature"], service := .light },
        { capabilities := ["switch", "valve"], service := .valve },
        { capabilities := ["temperatureMeasurement", "thermostatHeatingSetpoint"],
          service := .thermostat },
        { capabilities := ["windowShade", "windowShadeLevel"], service := .windowCovering },
        { capabilities := ["windowShade", "switchLevel"], service := .windowCovering } ]
    ∧ (sortCombosDesc comboCapabilityMap).Pairwise
        (fun a b => a.capabilities.length ≥ b.capabilities.length)
    ∧ addComponent {} false "main" ["switch", "fanSpeed", "switchLevel"] =
        [⟨"main", ["switch", "fanSpeed", "switchLevel"], .fanSwitchLevel⟩]
    ∧ addComponent {} false "main"
        ["switch", "airConditionerMode", "airConditionerFanMode",
         "thermostatCoolingSetpoint", "temperatureMeasurement", "fanOscillationMode"] =
        [⟨"main", ["switch", "airConditionerMode", "airConditionerFanMode",
          "thermostatCoolingSetpoint", "temperatureMeasurement", "fanOscillationMode"],
          .airConditioner⟩] := by
  refine ⟨by decide, by decide, by decide, by decide⟩

/-- C8 (counterexample): with the device offline, a sendCommands call still
issues its remote POST (no online check exists in sendCommands) and resolves
with the POST's result instead of failing fast with an unreachable error. -/

theorem claim8_counterexample :
    (execTrace offlineSendMachine [0, 0, 0]).postCalls = 1 ∧
    (execTrace offlineSendMachine [0, 0, 0]).tasks = [.taskDone true] ∧
    (execTrace offlineSendMachine [0, 0, 0]).dev.online = false := by
  decide

/-- C8 (amended): sendCommands never consults the online flag: for any run
consisting solely of sendCommands invocations, flipping the online flag
changes neither the remote POSTs issued nor any caller's result; the flag
gates only the polling read path. -/

theorem claim8_theorem (m : Machine) (b : Bool) (sched : List Nat)
    (h : m.tasks.all isSendish = true) :
    (execTrace (setOnline m b) sched).postCalls = (execTrace m sched).postCalls ∧
    (execTrace (setOnline m b) sched).tasks = (execTrace m sched).tasks := by
  rw [execTrace_online_frame sched m b h]
  exact ⟨rfl, rfl⟩

/-- C8 (witness): the online-independence claim on a concrete one-command
machine. -/

theorem claim8_witness :
    anySendMachine.tasks.all isSendish = true ∧
    ((execTrace (setOnline anySendMachine false) [0, 0, 0]).postCalls =
        (execTrace anySendMachine [0, 0, 0]).postCalls ∧
      (execTrace (setOnline anySendMachine false) [0, 0, 0]).tasks =
        (execTrace anySendMachine [0, 0, 0]).tasks) :=
  ⟨by decide, claim8_theorem anySendMachine false [0, 0, 0] (by decide)⟩

/-- C9 (code bug): the webhook gate and the command-in-flight guard hold,
but after a successful command completes, lastCommandCompleted still holds
its initial value 0 (sendCommands never updates it,
multiServiceAccessory.ts 574-597), so a polling tick 5 seconds after the
command completes is NOT skipped, contrary to the 20-second rule. -/

theorem claim9_theorem :
    startPollingStateCreatesTimer (some "webhook-token") 10 = false ∧
    pollTickSkipped { commandInProgress := true } 1700000000000 = true ∧
    commandCompletedDev.commandInProgress = false ∧
    commandCompletedDev.lastCommandCompleted = 0 ∧
    pollTickSkipped commandCompletedDev (1000000000003 + 5000) = false := by
  decide

/-- C6 (counterexample): a monitor tick and a 401 handler triggering a
refresh concurrently on the same expiring store each issue their own remote
token-exchange call: after both entry steps two refresh calls are in flight
simultaneously, violating the at-most-one-in-flight invariant. -/
theorem claim6_counterexample :
    (rexecTrace doubleTriggerMachine [0, 1]).refreshCalls = 2 ∧
    (rexecTrace doubleTriggerMachine [0, 1]).tasks =
      [.refreshPending true (.success {}), .refreshPending false (.success {})] := by
  decide

/-- C6 (amended): no single-flight discipline exists for token refresh.  The
only deduplication is per request: a 401 whose request was already retried
triggers no refresh; any two concurrent triggers (monitor tick and 401
handler) each issue their own remote token-exchange call, so two triggers
produce two calls with both pending at once. -/
theorem claim6_theorem :
    (∀ (s : TokenStore) (o : RefreshOutcome),
      interceptor401 s 401 true o = (s, .rejected, 0, false)) ∧
    (∀ (s : TokenStore) (now : Nat) (o1 o2 : RefreshOutcome) (d : TokenData),
      s.tokenData = some d → d.refresh_token ≠ "" →
      d.expires_at - now ≤ refreshBeforeExpiry →
      (rexecTrace ⟨s, now, 0, [.monitorEntry o1, .h401Entry false o2]⟩ [0, 1]).refreshCalls = 2 ∧
      (rexecTrace ⟨s, now, 0, [.monitorEntry o1, .h401Entry false o2]⟩ [0, 1]).tasks =
        [.refreshPending true o1, .refreshPending false o2]) := by
  constructor
  · intro s o
    simp [interceptor401]
  · intro s now o1 o2 d hd hrt hexp
    simp [rexecTrace, rstepTask, rtaskStep, hd, hrt, hexp, getRefreshToken]

/-- C6 (witness): the two-trigger scenario on the concrete expiring store. -/
theorem claim6_witness :
    (stExpiring.tokenData = some tdExpiring ∧ tdExpiring.refresh_token ≠ "" ∧
      tdExpiring.expires_at - 1000000000 ≤ refreshBeforeExpiry) ∧
    (rexecTrace ⟨stExpiring, 1000000000, 0,
        [.monitorEntry .failure, .h401Entry false .failure]⟩ [0, 1]).refreshCalls = 2 :=
  ⟨⟨rfl, by decide, by decide⟩,
   (claim6_theorem.2 stExpiring 1000000000 .failure .failure tdExpiring rfl (by decide)
      (by decide)).1⟩

/-- C7 (confirmed, spec-modelled CrashLoopManager): when the crash-loop
window holds at least the configured number of records and a token file
exists, didFinishLaunching clears both the in-memory token data and the
token file, starts the re-authentication flow, and skips device discovery. -/
theorem claim7_theorem (cfg : CrashLoopConfig) (now : Nat) (records : List Nat)
    (s : TokenStore) (o : RefreshOutcome)
    (hdet : isCrashLoopDetected cfg now records = true) (hfile : s.file.isSome = true) :
    didFinishLaunching cfg now records s o =
      ({ tokenData := none, file := none }, true, false) := by
  simp [didFinishLaunching, hdet, handleCrashLoopRecovery, clearTokens, hfile]

/-- C7 (witness): three crash records within a one-minute window with
threshold 3. -/
theorem claim7_witness :
    (isCrashLoopDetected ⟨3, 60000⟩ 100000 [95000, 96000, 97000] = true ∧
      stExpiring.file.isSome = true) ∧
    didFinishLaunching ⟨3, 60000⟩ 100000 [95000, 96000, 97000] stExpiring .failure =
      ({ tokenData := none, file := none }, true, false) :=
  ⟨⟨by decide, by decide⟩,
   claim7_theorem ⟨3, 60000⟩ 100000 [95000, 96000, 97000] stExpiring .failure
     (by decide) (by decide)⟩

/-- C10 (confirmed): SmartThingsAuth.initialize never mutates the token
store (the refreshTokens result at auth.ts 166 is discarded); the 401
interceptor never mutates the token store; and on a successful reactive
refresh the retried request is re-authorized with the pre-refresh access
token read back from the unchanged store. -/
theorem claim10_theorem :
    (∀ (s : TokenStore) (now : Nat) (o : RefreshOutcome), (authInit s now o).1 = s) ∧
    (∀ (s : TokenStore) (st : Nat) (rt : Bool) (o : RefreshOutcome),
      (interceptor401 s st rt o).1 = s) ∧
    (∀ (s : TokenStore) (p : TokenPatch) (tok : String),
      getAccessToken s = some tok → getRefreshToken s ≠ none →
      (interceptor401 s 401 false (.success p)).2.1 =
        .retryWith ("Bearer " ++ tok)) := by
  refine ⟨?_, ?_, ?_⟩
  · intro s now o
    unfold authInit
    repeat' split
    all_goals rfl
  · intro s st rt o
    unfold interceptor401
    repeat' split
    all_goals rfl
  · intro s p tok hacc hrt
    rcases hgrt : getRefreshToken s with _ | rt
    · exact absurd hgrt hrt
    · have hne := getRefreshToken_ne_empty hgrt
      simp [interceptor401, hgrt, refreshTokens, hne, hacc]

/-- C10 (witness): the frame effect on a concrete valid store. -/
theorem claim10_witness :
    (getAccessToken wStore = some "tokA" ∧ getRefreshToken wStore ≠ none) ∧
    (authInit wStore 5000000 .failure).1 = wStore ∧
    (interceptor401 wStore 401 false (.success {})).2.1 =
      .retryWith ("Bearer " ++ "tokA") :=
  ⟨⟨by decide, by decide⟩,
   claim10_theorem.1 wStore 5000000 .failure,
   claim10_theorem.2.2 wStore {} "tokA" (by decide) (by decide)⟩
